import Mathlib

set_option autoImplicit false
set_option linter.unusedVariables false

/-!
Shallow embedding of the GoWeatherApp terminal weather client (src/main.go).

Go strings are modelled as Lean `String`, Go `int` as `Int`, Go `float64`
temperature values as `ℚ` (the exact value carried by the float), and Go
panics as `Option.none`.  `strings.Repeat(" ", n)` panics for `n < 0`, so it
is modelled as an `Option`-returning function; every formatting function
built on it is `Option`-valued as well.  Network calls are abstracted as
function parameters or `Option`-valued response arguments; the lipgloss
style objects are abstracted as a record of `String → String` renderers.
-/

/-- A run of `n` spaces. -/
def spacesN (n : Nat) : String := String.mk (List.replicate n ' ')

/-- Model of Go `strings.Repeat(" ", n)` with `n : Int`: Go panics when the
count is negative, which is modelled as `none`. -/
def goRepeat (n : Int) : Option String :=
  if n < 0 then none else some (spacesN n.toNat)

/-- The centering pattern shared by every `format*Chunk` helper in main.go:
`strings.Repeat(" ", padding) + text + strings.Repeat(" ", width-dw-padding)`
where `padding := (width - dw) / 2` with Go's truncating integer division
and `dw` is the width value the source uses for `text` (for the ASCII-art
rows the declared width may differ from the true text length). -/
def centerDeclared (text : String) (dw w : Int) : Option String :=
  (goRepeat (Int.tdiv (w - dw) 2)).bind (fun l =>
    (goRepeat (w - dw - Int.tdiv (w - dw) 2)).bind (fun r =>
      some (l ++ text ++ r)))

/-- `center(text, width)` as in the spec's ColumnFormatter contract: the
source pattern with `dw` equal to the true length of `text`. -/
def center (text : String) (w : Int) : Option String :=
  centerDeclared text (text.length : Int) w

/-- Model of Go `strings.Join(chunks, " | ")`. -/
def goJoin : List String → String
  | [] => ""
  | [c] => c
  | c :: rest => c ++ " | " ++ goJoin rest

/-- Center every text of a list to the same width (the chunk-building loop
shared by the `format*Line` functions). -/
def centerAll : List String → Int → Option (List String)
  | [], _ => some []
  | t :: ts, w =>
    (center t w).bind (fun c => (centerAll ts w).bind (fun cs => some (c :: cs)))

/-- `line(items, w, f)` of the spec's ColumnFormatter: map each item text to
a centered chunk and join the chunks with `" | "`. -/
def line (texts : List String) (w : Int) : Option String :=
  (centerAll texts w).map goJoin

/-- Translation of `getWeatherDescriptionFromCode` (main.go:322); a Go
multi-value `case` becomes a disjunction of equalities. -/
def getWeatherDescriptionFromCode (code : Int) : String :=
  if code = 0 then ("Sunny")
  else if code = 1 ∨ code = 2 ∨ code = 3 then ("Cloudy")
  else if code = 45 ∨ code = 48 then ("Fog")
  else if code = 51 ∨ code = 53 ∨ code = 55 ∨ code = 56 ∨ code = 57 ∨
      code = 61 ∨ code = 63 ∨ code = 65 ∨ code = 66 ∨ code = 67 ∨
      code = 80 ∨ code = 81 ∨ code = 82 then ("Rain")
  else if code = 71 ∨ code = 73 ∨ code = 75 ∨ code = 77 ∨ code = 85 ∨
      code = 86 then ("Snow")
  else if code = 95 ∨ code = 96 ∨ code = 99 then ("Thunderstorm")
  else ("Unknown weather code")

/-- All weather codes covered by a non-default `case` of the six switches. -/
def knownWeatherCodes : List Int :=
  [0, 1, 2, 3, 45, 48, 51, 53, 55, 56, 57, 61, 63, 65, 66, 67, 80, 81, 82,
   71, 73, 75, 77, 85, 86, 95, 96, 99]

/-- The lipgloss style objects of main.go, abstracted: each is just some
`String → String` renderer. -/
structure Styles where
  title : String → String
  sunny : String → String
  rain : String → String
  cloud2 : String → String

/-- Translation of `getASCIILine1ForWeather` (main.go:341): returns the
(rendered) glyph text together with the *declared* display width, which the
source computes with `len` of a literal that is not always the same literal
as the rendered one. -/
def getASCIILine1ForWeather (st : Styles) (code : Int) : String × Int :=
  if code = 0 then (st.sunny ("\\ | /"), (("\\ | /" : String).length : Int))
  else if code = 1 ∨ code = 2 ∨ code = 3 then
    (st.cloud2 ("  ____"), (("    __" : String).length : Int))
  else if code = 45 ∨ code = 48 then (("o o o"), (("o o o" : String).length : Int))
  else if code = 51 ∨ code = 53 ∨ code = 55 ∨ code = 56 ∨ code = 57 ∨
      code = 61 ∨ code = 63 ∨ code = 65 ∨ code = 66 ∨ code = 67 ∨
      code = 80 ∨ code = 81 ∨ code = 82 then
    (st.rain ("/ / /"), (("/ / /" : String).length : Int))
  else if code = 71 ∨ code = 73 ∨ code = 75 ∨ code = 77 ∨ code = 85 ∨
      code = 86 then (("* * * *"), (("* * * *" : String).length : Int))
  else if code = 95 ∨ code = 96 ∨ code = 99 then
    (("(   ( )"), (("(   ( )" : String).length : Int))
  else (("Unknown weather code"), 1)

/-- Translation of `getASCIILine2ForWeather` (main.go:360). -/
def getASCIILine2ForWeather (st : Styles) (code : Int) : String × Int :=
  if code = 0 then (st.sunny ("-- O --"), (("-- O --" : String).length : Int))
  else if code = 1 ∨ code = 2 ∨ code = 3 then
    (st.cloud2 ("_(    )"), (("   (  )" : String).length : Int))
  else if code = 45 ∨ code = 48 then (("o o o o"), (("o o o o" : String).length : Int))
  else if code = 51 ∨ code = 53 ∨ code = 55 ∨ code = 56 ∨ code = 57 ∨
      code = 61 ∨ code = 63 ∨ code = 65 ∨ code = 66 ∨ code = 67 ∨
      code = 80 ∨ code = 81 ∨ code = 82 then
    (st.rain ("/ / / /"), (("/ / / /" : String).length : Int))
  else if code = 71 ∨ code = 73 ∨ code = 75 ∨ code = 77 ∨ code = 85 ∨
      code = 86 then ((" * * *"), ((" * * *" : String).length : Int))
  else if code = 95 ∨ code = 96 ∨ code = 99 then
    (("(   (   )"), (("(   (   )" : String).length : Int))
  else (("Unknown weather code"), 1)

/-- Translation of `getASCIILine3ForWeather` (main.go:379). -/
def getASCIILine3ForWeather (st : Styles) (code : Int) : String × Int :=
  if code = 0 then (st.sunny ("/ | \\"), (("/ | \\" : String).length : Int))
  else if code = 1 ∨ code = 2 ∨ code = 3 then
    (("(____)___)"), (("(____)___)" : String).length : Int))
  else if code = 45 ∨ code = 48 then (("o o o"), (("o o o" : String).length : Int))
  else if code = 51 ∨ code = 53 ∨ code = 55 ∨ code = 56 ∨ code = 57 ∨
      code = 61 ∨ code = 63 ∨ code = 65 ∨ code = 66 ∨ code = 67 ∨
      code = 80 ∨ code = 81 ∨ code = 82 then
    (st.rain ("/ /  /"), (("/ /  /" : String).length : Int))
  else if code = 71 ∨ code = 73 ∨ code = 75 ∨ code = 77 ∨ code = 85 ∨
      code = 86 then (("* * * *"), (("* * * *" : String).length : Int))
  else if code = 95 ∨ code = 96 ∨ code = 99 then
    (("/ / / /"), (("/ / / /" : String).length : Int))
  else (("Unknown weather code"), 1)

/-- The `switch lineNumber` at the top of `formatASCIICodeChunk`
(main.go:508). -/
def selectASCIILine (st : Styles) (lineNumber : Int) (code : Int) : String × Int :=
  if lineNumber = 1 then getASCIILine1ForWeather st code
  else if lineNumber = 2 then getASCIILine2ForWeather st code
  else if lineNumber = 3 then getASCIILine3ForWeather st code
  else (("Unkown"), 9)

/-- Translation of `formatASCIICodeChunk` (main.go:504): centers the glyph
text using the *declared* width, not the actual text length. -/
def formatASCIICodeChunk (st : Styles) (code : Int) (w : Int) (lineNumber : Int) :
    Option String :=
  let aw := selectASCIILine st lineNumber code
  centerDeclared aw.1 aw.2 w

/-- Translation of `formatVisualWeatherLine` (main.go:495). -/
def formatVisualWeatherLine (st : Styles) (codes : List Int) (w : Int)
    (lineNumber : Int) : Option String :=
  (asciiAll codes w lineNumber).map goJoin
where
  asciiAll : List Int → Int → Int → Option (List String)
    | [], _, _ => some []
    | c :: cs, w, ln =>
      (formatASCIICodeChunk st c w ln).bind (fun a =>
        (asciiAll cs w ln).bind (fun as => some (a :: as)))

example : center ("abc") 7 = some ("  abc  ") := by decide
example : getWeatherDescriptionFromCode 12 = "Unknown weather code" := by decide
example :
    formatASCIICodeChunk ⟨id, id, id, id⟩ 12 25 1 =
      some (spacesN 12 ++ "Unknown weather code" ++ spacesN 12) := by decide

/-- Modelled from the Go standard library: leap-year test used by
`time.Parse` range checking. -/
def isLeap (y : Nat) : Bool :=
  y % 4 = 0 && (y % 100 != 0 || y % 400 = 0)

/-- Modelled from the Go standard library: days in a month, used by
`time.Parse` to validate the day field. -/
def daysIn (y m : Nat) : Nat :=
  if m = 2 then (if isLeap y then 29 else 28)
  else if m = 4 ∨ m = 6 ∨ m = 9 ∨ m = 11 then 30
  else 31

/-- Numeric value of a decimal digit character. -/
def digitVal (c : Char) : Nat := c.toNat - ('0').toNat

/-- Modelled from the Go standard library: `time.Parse("2006-01-02", s)`
for this fixed layout.  It succeeds exactly on strings of shape
`dddd-dd-dd` whose month lies in `1..12` and whose day lies in
`1..daysIn(year, month)`; everything else is a parse error (`none`). -/
def parseGoDate (s : String) : Option (Nat × Nat × Nat) :=
  match s.toList with
  | [y1, y2, y3, y4, s1, m1, m2, s2, d1, d2] =>
    if y1.isDigit && y2.isDigit && y3.isDigit && y4.isDigit &&
        s1 == '-' && m1.isDigit && m2.isDigit && s2 == '-' &&
        d1.isDigit && d2.isDigit then
      let year := 1000 * digitVal y1 + 100 * digitVal y2 + 10 * digitVal y3 + digitVal y4
      let month := 10 * digitVal m1 + digitVal m2
      let day := 10 * digitVal d1 + digitVal d2
      if 1 ≤ month ∧ month ≤ 12 ∧ 1 ≤ day ∧ day ≤ daysIn year month then
        some (year, month, day)
      else none
    else none
  | _ => none

/-- Modelled from the Go standard library: day count of a proleptic
Gregorian date, used to compute the weekday that `time.Format("Monday ...")`
prints.  Day `0` is 0000-03-01, a Wednesday. -/
def dayNumber (y m d : Nat) : Int :=
  let mp : Nat := (m + 9) % 12
  let yp : Int := (y : Int) - ((mp / 10 : Nat) : Int)
  365 * yp + Int.fdiv yp 4 - Int.fdiv yp 100 + Int.fdiv yp 400 +
    (((mp * 306 + 5) / 10 : Nat) : Int) + ((d : Int) - 1)

/-- Weekday names indexed by `dayNumber % 7` (day 0 is a Wednesday). -/
def weekdayNames : List String :=
  ["Wednesday", "Thursday", "Friday", "Saturday", "Sunday", "Monday", "Tuesday"]

/-- Full month names as printed by Go's `January` layout element. -/
def monthNames : List String :=
  ["January", "February", "March", "April", "May", "June", "July",
   "August", "September", "October", "November", "December"]

/-- Full weekday name of a date. -/
def weekdayName (y m d : Nat) : String :=
  weekdayNames.getD (dayNumber y m d % 7).toNat ("")

/-- Full month name of month `m` (1-based). -/
def monthName (m : Nat) : String := monthNames.getD (m - 1) ("")

/-- Translation of `formatDate` (main.go:398): `time.Parse("2006-01-02", _)`
followed by `Format("Monday January 2")`; a parse error yields `""`. -/
def formatDate (dateStr : String) : String :=
  match parseGoDate dateStr with
  | none => ""
  | some (y, m, d) => weekdayName y m d ++ " " ++ monthName m ++ " " ++ Nat.repr d

example : formatDate ("2024-10-13") = "Sunday October 13" := by decide
example : formatDate ("not-a-date") = "" := by decide
example : formatDate ("2006-01-02") = "Monday January 2" := by decide

/-- Floor of a rational, computed from its reduced fraction (the
denominator is positive, so floor division of `num` by `den` is the floor). -/
def ratFloor (q : ℚ) : Int := q.num / q.den

/-- Modelled from the Go standard library: the integer printed by
`fmt.Sprintf("%.0f", v)`, namely `v` rounded to the nearest integer with
ties to even (Go formats the shortest correctly-rounded decimal).  The
fractional part `q - ⌊q⌋` is compared with `1/2` through the integer
remainder `rem = q.num - ⌊q⌋ * q.den`: the fraction is below, above or at
`1/2` according as `2 * rem` is below, above or at `q.den`. -/
def goRound (q : ℚ) : Int :=
  let f := ratFloor q
  let rem := q.num - f * (q.den : Int)
  if 2 * rem < (q.den : Int) then f
  else if (q.den : Int) < 2 * rem then f + 1
  else if f % 2 = 0 then f else f + 1

/-- Modelled from the Go standard library: the full text produced by
`fmt.Sprintf("%.0f", v)`.  A negative value whose rounded magnitude is zero
keeps its sign and prints as `"-0"` (`q.num < 0` is `q < 0`). -/
def goFmtF0 (q : ℚ) : String :=
  if goRound q = 0 ∧ q.num < 0 then ("-0") else toString (goRound q)

/-- The chunk text of `formatHighsChunk` (main.go:432):
`fmt.Sprintf("High %.0f", high)`. -/
def highText (q : ℚ) : String := "High " ++ goFmtF0 q

/-- The chunk text of `formatLowsChunk` (main.go:451):
`fmt.Sprintf("Low %.0f", low)`. -/
def lowText (q : ℚ) : String := "Low " ++ goFmtF0 q

/-- Translation of `formatHighsChunk` (main.go:430). -/
def formatHighsChunk (high : ℚ) (w : Int) : Option String := center (highText high) w

/-- Translation of `formatLowsChunk` (main.go:449). -/
def formatLowsChunk (low : ℚ) (w : Int) : Option String := center (lowText low) w

/-- Translation of `formatDatesChunk` (main.go:412). -/
def formatDatesChunk (text : String) (w : Int) : Option String :=
  center (formatDate text) w

/-- Translation of `formatWeatherCodeChunk` (main.go:477). -/
def formatWeatherCodeChunk (code : Int) (w : Int) : Option String :=
  center (getWeatherDescriptionFromCode code) w

/-- Translation of `formatDatesLine` (main.go:421). -/
def formatDatesLine (dates : List String) (w : Int) : Option String :=
  line (dates.map formatDate) w

/-- Translation of `formatHighsLine` (main.go:440). -/
def formatHighsLine (highs : List ℚ) (w : Int) : Option String :=
  line (highs.map highText) w

/-- Translation of `formatLowsLine` (main.go:459). -/
def formatLowsLine (lows : List ℚ) (w : Int) : Option String :=
  line (lows.map lowText) w

/-- Translation of `formatWeatherCodeLine` (main.go:486). -/
def formatWeatherCodeLine (codes : List Int) (w : Int) : Option String :=
  line (codes.map getWeatherDescriptionFromCode) w

/-- Translation of `formatSpaceLine` (main.go:468). -/
def formatSpaceLine (numOfChunks : Nat) (w : Int) : Option String :=
  (goRepeat w).map (fun c => goJoin (List.replicate numOfChunks c))

example : goFmtF0 (mkRat (-3) 10) = "-0" := by decide
example : goFmtF0 (mkRat 754 10) = "75" := by decide
example : goFmtF0 (mkRat 5 2) = "2" := by decide
example : goFmtF0 (mkRat 3 2) = "2" := by decide
example : goFmtF0 (mkRat 602 10) = "60" := by decide
example : formatSpaceLine 2 3 = some ("    |    ") := by decide

/-- Translation of the `Location` struct (main.go:526); every field is kept
as text the way the source keeps it. -/
structure Location where
  ip : String := ""
  city : String := ""
  region : String := ""
  country : String := ""
  latLon : String := ""
  lat : String := ""
  lon : String := ""
  deriving DecidableEq

/-- Translation of the `LocationIQResponse` struct (main.go:539). -/
structure LocationIQResponse where
  lat : String
  lon : String
  deriving DecidableEq

/-- The `daily` object of the `Weather` struct (main.go:548). -/
structure DailyData where
  weatherCode : List Int
  time : List String
  temperatureMax : List ℚ
  temperatureMin : List ℚ
  deriving DecidableEq

/-- Translation of the `Weather` struct (main.go:545). -/
structure Weather where
  latitude : ℚ := 0
  longitude : ℚ := 0
  daily : DailyData
  deriving DecidableEq

/-- Translation of the `DailyWeather` struct (main.go:556). -/
structure DailyWeather where
  weatherCode : Int
  time : String
  temperatureMax : ℚ
  temperatureMin : ℚ
  deriving DecidableEq

/-- Translation of the `viewModel` struct (main.go:564). -/
structure viewModel where
  input : String
  message : String
  location : Location
  dailyWeather : List DailyWeather
  weather : Weather
  deriving DecidableEq

/-- Model of Go `strings.Split(s, ",")`: split on every separator
character; the result always has at least one element. -/
def goSplit (s : String) (sep : Char) : List String :=
  splitAux s.toList []
where
  splitAux : List Char → List Char → List String
    | [], acc => [String.mk acc.reverse]
    | x :: xs, acc =>
      if x = sep then String.mk acc.reverse :: splitAux xs []
      else splitAux xs (x :: acc)

/-- Model of Go `strings.TrimSpace` (ASCII whitespace). -/
def goTrimSpace (s : String) : String :=
  String.mk (((s.toList.dropWhile Char.isWhitespace).reverse.dropWhile
    Char.isWhitespace).reverse)

example : goSplit ("a, b") ',' = [("a"), (" b")] := by decide
example : goSplit ("Minneapolis") ',' = [("Minneapolis")] := by decide
example : goTrimSpace ("  b ") = "b" := by decide

/-- The pure decision logic of `getLatLonFromCityState` (main.go:278): the
HTTP/JSON outcome is abstracted as `resp` (`none` for a transport, read or
decode failure, `some l` for a decoded candidate list).  Every failure and
the empty candidate list yield the placeholder pair `("0.0", "0.0")`;
otherwise the first candidate's fields are returned. -/
def getLatLonFromCityState (resp : Option (List LocationIQResponse))
    (city state : String) : String × String :=
  match resp with
  | none => ("0.0", "0.0")
  | some [] => ("0.0", "0.0")
  | some (first :: _) => (first.lat, first.lon)

/-- The `if lat == "0.0" && lon == "0.0"` substitution applied to the
freshly built `Location` in `handleInput` (main.go:152..163). -/
def resolveLocation (city state lat lon : String) : Location :=
  let location : Location := { city := city, region := state, lat := lat, lon := lon }
  if lat = "0.0" ∧ lon = "0.0" then
    { location with city := "Unknown", region := "Unknown" }
  else location

/-- The loop of `handleInput`/`initialModel` that copies the four parallel
`daily` arrays into `DailyWeather` records, indexing all four arrays by the
length of `Time`; an out-of-range index is a Go panic (`none`). -/
def buildDailyWeather (weather : Weather) : Option (List DailyWeather) :=
  go (List.range weather.daily.time.length)
where
  go : List Nat → Option (List DailyWeather)
    | [] => some []
    | i :: is =>
      (weather.daily.time[i]?).bind (fun t =>
        (weather.daily.weatherCode[i]?).bind (fun c =>
          (weather.daily.temperatureMax[i]?).bind (fun hi =>
            (weather.daily.temperatureMin[i]?).bind (fun lo =>
              (go is).map (fun rest => ⟨c, t, hi, lo⟩ :: rest)))))

/-- Translation of `handleInput` (main.go:136), with the geocoding and
forecast HTTP calls abstracted as function parameters.  The source splits
the input on `","`, sets a warning message when there are fewer than two
parts, and then unconditionally reads `parts[1]` — an index-out-of-range
panic (`none`) whenever the input has no comma. -/
def handleInput (geocode : String → String → String × String)
    (fetch : String → String → Weather) (m : viewModel) (input : String) :
    Option viewModel :=
  let parts := goSplit input ','
  let m1 := if parts.length < 2 then
      { m with message := "Please enter both a city and a state (e.g., Los Angeles, CA)" }
    else m
  (parts[0]?).bind (fun p0 =>
    (parts[1]?).bind (fun p1 =>
      let city := goTrimSpace p0
      let state := goTrimSpace p1
      let latlon := geocode city state
      let location := resolveLocation city state latlon.1 latlon.2
      let weather := fetch location.lat location.lon
      (buildDailyWeather weather).map (fun daily =>
        { m1 with location := location, dailyWeather := daily,
                  weather := weather, input := "" })))

/-- Translation of `View` (main.go:93): the rendered screen, `none` when
one of the formatting helpers panics. -/
def View (st : Styles) (m : viewModel) : Option String :=
  let width : Int := 25
  let dates := m.weather.daily.time
  let highs := m.weather.daily.temperatureMax
  let lows := m.weather.daily.temperatureMin
  let codes := m.weather.daily.weatherCode
  (formatDatesLine dates width).bind (fun l1 =>
    (formatSpaceLine dates.length width).bind (fun l2 =>
      (formatVisualWeatherLine st codes width 1).bind (fun l3 =>
        (formatVisualWeatherLine st codes width 2).bind (fun l4 =>
          (formatVisualWeatherLine st codes width 3).bind (fun l5 =>
            (formatSpaceLine dates.length width).bind (fun l6 =>
              (formatWeatherCodeLine codes width).bind (fun l7 =>
                (formatHighsLine highs width).bind (fun l8 =>
                  (formatLowsLine lows width).map (fun l9 =>
                    "\n" ++
                    st.title ("Weather for " ++ m.location.city ++ ", " ++ m.location.region) ++
                    "\n" ++
                    st.title ("Latitude: " ++ m.location.lat ++ ", Longitude: " ++ m.location.lon) ++
                    "\n\n" ++
                    l1 ++ "\n" ++ l2 ++ "\n" ++ l3 ++ "\n" ++ l4 ++ "\n" ++
                    l5 ++ "\n" ++ l6 ++ "\n" ++ l7 ++ "\n" ++ l8 ++ "\n" ++
                    l9 ++ "\n\n" ++ "\n" ++
                    "Enter a city and state (e.g., Los Angeles, CA) to get weather or type \x27quit\x27 to exit: \n" ++
                    m.input)))))))))

/-- A weather response with four empty aligned arrays. -/
def emptyWeather : Weather :=
  { daily := { weatherCode := [], time := [], temperatureMax := [], temperatureMin := [] } }

/-- A geocoder stub used in concrete evaluations. -/
def geoStub : String → String → String × String := fun _ _ => ("10.0", "20.0")

/-- A forecast-fetch stub used in concrete evaluations. -/
def fetchStub : String → String → Weather := fun _ _ => emptyWeather

/-- An initial view-model used in concrete evaluations. -/
def vm0 : viewModel :=
  { input := "", message := "", location := {}, dailyWeather := [], weather := emptyWeather }


/-! ### Helper lemmas about the centering pattern -/

theorem spacesN_length (n : Nat) : (spacesN n).length = n := by
  simp [spacesN]

theorem centerDeclared_of_le (text : String) (dw w : Int) (h : dw ≤ w) :
    centerDeclared text dw w =
      some (spacesN ((w - dw).toNat / 2) ++ text ++
        spacesN ((w - dw).toNat - (w - dw).toNat / 2)) := by
  have hL : w - dw = (((w - dw).toNat : Nat) : Int) := by omega
  set L := (w - dw).toNat with hLdef
  unfold centerDeclared goRepeat
  rw [hL]
  have h1 : Int.tdiv ((L : Nat) : Int) 2 = ((L / 2 : Nat) : Int) := rfl
  rw [h1]
  rw [if_neg (by omega : ¬(((L / 2 : Nat) : Int) < 0))]
  have h3 : ((L : Nat) : Int) - ((L / 2 : Nat) : Int) = ((L - L / 2 : Nat) : Int) := by
    omega
  rw [h3]
  rw [if_neg (by omega : ¬(((L - L / 2 : Nat) : Int) < 0))]
  rfl

theorem centerDeclared_of_gt (text : String) (dw w : Int) (h : w < dw) :
    centerDeclared text dw w = none := by
  rcases hd : w - dw with k | k
  · have hk : w - dw = ((k : Nat) : Int) := hd
    omega
  · unfold centerDeclared goRepeat
    rw [hd]
    rcases k with _ | k
    · rfl
    · have h1 : Int.tdiv (Int.negSucc (k + 1)) 2 = -(((k + 2) / 2 : Nat) : Int) := rfl
      rw [h1]
      rw [if_pos (by omega : -(((k + 2) / 2 : Nat) : Int) < 0)]
      rfl

theorem center_of_le (text : String) (w : Int) (h : (text.length : Int) ≤ w) :
    center text w =
      some (spacesN ((w - (text.length : Int)).toNat / 2) ++ text ++
        spacesN ((w - (text.length : Int)).toNat -
          (w - (text.length : Int)).toNat / 2)) :=
  centerDeclared_of_le text (text.length : Int) w h

theorem centerAll_of_fits (w : Int) :
    ∀ texts : List String, (∀ t ∈ texts, (t.length : Int) ≤ w) →
      ∃ chunks : List String, centerAll texts w = some chunks ∧
        chunks.length = texts.length ∧ ∀ c ∈ chunks, c.length = w.toNat
  | [], _ => ⟨[], rfl, rfl, by simp⟩
  | t :: ts, hfit => by
    have ht : (t.length : Int) ≤ w := hfit t (by simp)
    obtain ⟨chunks, hc, hlen, hall⟩ :=
      centerAll_of_fits w ts (fun x hx => hfit x (by simp [hx]))
    refine ⟨(spacesN ((w - (t.length : Int)).toNat / 2) ++ t ++
        spacesN ((w - (t.length : Int)).toNat -
          (w - (t.length : Int)).toNat / 2)) :: chunks, ?_, ?_, ?_⟩
    · show (center t w).bind _ = _
      rw [center_of_le t w ht, hc]
      rfl
    · simp [hlen]
    · intro c hcmem
      rcases List.mem_cons.mp hcmem with hceq | hcmem2
      · subst hceq
        have hw0 : 0 ≤ w := le_trans (by omega) ht
        simp only [String.length_append, spacesN_length]
        omega
      · exact hall c hcmem2

theorem goJoin_length (w : Nat) :
    ∀ chunks : List String, chunks ≠ [] → (∀ c ∈ chunks, c.length = w) →
      (goJoin chunks).length = chunks.length * w + (chunks.length - 1) * 3
  | [], hne, _ => absurd rfl hne
  | [c], _, hall => by
    have := hall c (by simp)
    simp [goJoin, this]
  | c :: c2 :: rest, _, hall => by
    have hc : c.length = w := hall c (by simp)
    have hrest := goJoin_length w (c2 :: rest) (by simp)
      (fun x hx => hall x (by simp [List.mem_cons.mp hx]))
    show (c ++ " | " ++ goJoin (c2 :: rest)).length = _
    simp only [String.length_append, hc, hrest, List.length_cons,
      Nat.add_sub_cancel]
    have h3 : (" | " : String).length = 3 := rfl
    rw [h3]
    ring

/-! ### C2: center with overflowing text -/

/-- C2 counterexample: the claim says `center` clamps the negative pad and
returns left padding followed by the text; the code instead feeds the
negative count to `strings.Repeat`, a panic, so no string is produced at
all for `text = "abcdef"`, `width = 5`. -/
theorem center_overflow_cex : center ("abcdef") 5 = none := by decide

/-- C2 amended: for every text and width with `len(text) > width`, the
centering pattern panics on the negative repeat count (it does not clamp
and does not return a string). -/
theorem center_overflow_panics (text : String) (w : Int)
    (h : w < (text.length : Int)) : center text w = none :=
  centerDeclared_of_gt text (text.length : Int) w h

/-- C2 witness: the amended theorem applied at `text = "abcd"`, `width = 3`. -/
theorem center_overflow_panics_witness :
    ((3 : Int) < (("abcd" : String).length : Int)) ∧ center ("abcd") 3 = none :=
  ⟨by decide, center_overflow_panics ("abcd") 3 (by decide)⟩

/-! ### C4: center with fitting text -/

/-- C4: for `len(text) ≤ width`, `center(text, width)` returns a string of
exactly `width` characters that contains `text` contiguously; the left pad
is `(width - len) / 2` rounded down, so an odd leftover puts the extra
space on the right. -/
theorem center_fits_spec (text : String) (w : Int)
    (h : (text.length : Int) ≤ w) :
    ∃ p q : Nat,
      center text w = some (spacesN p ++ text ++ spacesN q) ∧
      ((spacesN p ++ text ++ spacesN q).length : Int) = w ∧
      (∃ a b : String, spacesN p ++ text ++ spacesN q = a ++ text ++ b) ∧
      p ≤ q ∧ q ≤ p + 1 ∧
      ((w.toNat - text.length) % 2 = 1 → q = p + 1) := by
  refine ⟨(w - (text.length : Int)).toNat / 2,
    (w - (text.length : Int)).toNat - (w - (text.length : Int)).toNat / 2,
    center_of_le text w h, ?_, ⟨_, _, rfl⟩, ?_, ?_, ?_⟩
  · simp only [String.length_append, spacesN_length]
    omega
  · omega
  · omega
  · intro hodd
    omega

/-- C4 witness: the theorem applied at `text = "hi"`, `width = 7`
(odd leftover 5: two spaces left, three right). -/
theorem center_fits_spec_witness :
    ((("hi" : String).length : Int) ≤ 7) ∧
    (∃ p q : Nat,
      center ("hi") 7 = some (spacesN p ++ "hi" ++ spacesN q) ∧
      ((spacesN p ++ "hi" ++ spacesN q).length : Int) = 7 ∧
      (∃ a b : String, spacesN p ++ "hi" ++ spacesN q = a ++ "hi" ++ b) ∧
      p ≤ q ∧ q ≤ p + 1 ∧
      (((7 : Int).toNat - ("hi" : String).length) % 2 = 1 → q = p + 1)) :=
  ⟨by decide, center_fits_spec ("hi") 7 (by decide)⟩

/-! ### C5: line length -/

/-- C5 counterexample: the claim promises a string of length
`n*w + (n-1)*3` for every item list, width and formatter; at
`codes = [12]`, `width = 5` the chunk text `"Unknown weather code"` is
longer than the width and the line computation panics, producing no string
at all. -/
theorem line_length_cex : formatWeatherCodeLine [12] 5 = none := by decide

/-- C5 amended: whenever every chunk text fits its width, `line` returns a
string of length exactly `n*w + (n-1)*3`, built from `n` width-wide chunks
joined by the three-character separator `" | "`. -/
theorem line_length_spec (texts : List String) (w : Int) (hne : texts ≠ [])
    (hfit : ∀ t ∈ texts, (t.length : Int) ≤ w) :
    ∃ chunks : List String,
      centerAll texts w = some chunks ∧
      line texts w = some (goJoin chunks) ∧
      chunks.length = texts.length ∧
      (∀ c ∈ chunks, c.length = w.toNat) ∧
      (goJoin chunks).length = texts.length * w.toNat + (texts.length - 1) * 3 := by
  obtain ⟨chunks, hc, hlen, hall⟩ := centerAll_of_fits w texts hfit
  have hne2 : chunks ≠ [] := by
    intro hnil
    subst hnil
    exact hne (List.length_eq_zero.mp hlen.symm)
  refine ⟨chunks, hc, ?_, hlen, hall, ?_⟩
  · simp [line, hc]
  · rw [goJoin_length w.toNat chunks hne2 hall, hlen]

/-- C5 witness: the amended theorem applied at `texts = ["abc", "de"]`,
`width = 7`: two 7-wide chunks and one separator, 17 characters. -/
theorem line_length_spec_witness :
    ((["abc", "de"] : List String) ≠ []) ∧
    (∀ t ∈ (["abc", "de"] : List String), (t.length : Int) ≤ 7) ∧
    (∃ chunks : List String,
      centerAll ["abc", "de"] 7 = some chunks ∧
      line ["abc", "de"] 7 = some (goJoin chunks) ∧
      chunks.length = (["abc", "de"] : List String).length ∧
      (∀ c ∈ chunks, c.length = (7 : Int).toNat) ∧
      (goJoin chunks).length =
        (["abc", "de"] : List String).length * (7 : Int).toNat +
          ((["abc", "de"] : List String).length - 1) * 3) :=
  ⟨by decide, by decide, line_length_spec ["abc", "de"] 7 (by decide) (by decide)⟩

/-! ### C6 and C3: the weather-code switches -/

theorem unknown_code_branches (st : Styles) (code : Int)
    (h : code ∉ knownWeatherCodes) :
    getASCIILine1ForWeather st code = (("Unknown weather code"), 1) ∧
    getASCIILine2ForWeather st code = (("Unknown weather code"), 1) ∧
    getASCIILine3ForWeather st code = (("Unknown weather code"), 1) ∧
    getWeatherDescriptionFromCode code = "Unknown weather code" := by
  simp only [knownWeatherCodes, List.mem_cons, List.not_mem_nil, or_false,
    not_or] at h
  refine ⟨?_, ?_, ?_, ?_⟩ <;>
    simp [getASCIILine1ForWeather, getASCIILine2ForWeather,
      getASCIILine3ForWeather, getWeatherDescriptionFromCode, h]

/-- C6: `description(code)` returns the fixed label of each declared class
and `"Unknown weather code"` for every integer outside the six sets. -/
theorem description_classes (code : Int) :
    (code = 0 → getWeatherDescriptionFromCode code = "Sunny") ∧
    ((code = 1 ∨ code = 2 ∨ code = 3) →
      getWeatherDescriptionFromCode code = "Cloudy") ∧
    ((code = 45 ∨ code = 48) → getWeatherDescriptionFromCode code = "Fog") ∧
    ((code = 51 ∨ code = 53 ∨ code = 55 ∨ code = 56 ∨ code = 57 ∨
      code = 61 ∨ code = 63 ∨ code = 65 ∨ code = 66 ∨ code = 67 ∨
      code = 80 ∨ code = 81 ∨ code = 82) →
      getWeatherDescriptionFromCode code = "Rain") ∧
    ((code = 71 ∨ code = 73 ∨ code = 75 ∨ code = 77 ∨ code = 85 ∨
      code = 86) → getWeatherDescriptionFromCode code = "Snow") ∧
    ((code = 95 ∨ code = 96 ∨ code = 99) →
      getWeatherDescriptionFromCode code = "Thunderstorm") ∧
    (code ∉ knownWeatherCodes →
      getWeatherDescriptionFromCode code = "Unknown weather code") := by
  refine ⟨?_, ?_, ?_, ?_, ?_, ?_, ?_⟩
  · rintro rfl
    decide
  · rintro (rfl | rfl | rfl) <;> decide
  · rintro (rfl | rfl) <;> decide
  · rintro (rfl | rfl | rfl | rfl | rfl | rfl | rfl | rfl | rfl | rfl |
      rfl | rfl | rfl) <;> decide
  · rintro (rfl | rfl | rfl | rfl | rfl | rfl) <;> decide
  · rintro (rfl | rfl | rfl) <;> decide
  · intro h
    exact (unknown_code_branches ⟨id, id, id, id⟩ code h).2.2.2

/-- C6 witness: the theorem applied at one code of each class and at the
out-of-class code 12. -/
theorem description_classes_witness :
    getWeatherDescriptionFromCode 0 = "Sunny" ∧
    getWeatherDescriptionFromCode 2 = "Cloudy" ∧
    getWeatherDescriptionFromCode 45 = "Fog" ∧
    getWeatherDescriptionFromCode 61 = "Rain" ∧
    getWeatherDescriptionFromCode 77 = "Snow" ∧
    getWeatherDescriptionFromCode 99 = "Thunderstorm" ∧
    getWeatherDescriptionFromCode 12 = "Unknown weather code" :=
  ⟨(description_classes 0).1 rfl,
   (description_classes 2).2.1 (by decide),
   (description_classes 45).2.2.1 (by decide),
   (description_classes 61).2.2.2.1 (by decide),
   (description_classes 77).2.2.2.2.1 (by decide),
   (description_classes 99).2.2.2.2.2.1 (by decide),
   (description_classes 12).2.2.2.2.2.2 (by decide)⟩

/-- The identity style record (no colors). -/
def idStyles : Styles := ⟨id, id, id, id⟩

/-- C3: for every code outside the six classes and every glyph row 1..3,
the row lookup returns `"Unknown weather code"` with declared width 1, and
the glyph chunk centers with that declared width — the pads add up to
`width - 1`, not `width - 20`. -/
theorem unknown_code_glyph_sentinel (st : Styles) (code : Int)
    (h : code ∉ knownWeatherCodes) (r : Int) (hr : r = 1 ∨ r = 2 ∨ r = 3)
    (w : Int) (hw : 1 ≤ w) :
    selectASCIILine st r code = (("Unknown weather code"), 1) ∧
    formatASCIICodeChunk st code w r =
      some (spacesN ((w - 1).toNat / 2) ++ "Unknown weather code" ++
        spacesN ((w - 1).toNat - (w - 1).toNat / 2)) := by
  obtain ⟨h1, h2, h3, _⟩ := unknown_code_branches st code h
  have hsel : selectASCIILine st r code = (("Unknown weather code"), 1) := by
    rcases hr with rfl | rfl | rfl
    · simpa [selectASCIILine] using h1
    · simpa [selectASCIILine] using h2
    · simpa [selectASCIILine] using h3
  refine ⟨hsel, ?_⟩
  show centerDeclared (selectASCIILine st r code).1 (selectASCIILine st r code).2 w = _
  rw [hsel]
  exact centerDeclared_of_le _ 1 w hw

/-- C3 witness: the theorem applied at code 12, row 1, width 25: twelve
spaces either side of the twenty-character sentinel text. -/
theorem unknown_code_glyph_sentinel_witness :
    ((12 : Int) ∉ knownWeatherCodes) ∧
    ((1 : Int) = 1 ∨ (1 : Int) = 2 ∨ (1 : Int) = 3) ∧
    ((1 : Int) ≤ 25) ∧
    (selectASCIILine idStyles 1 12 = (("Unknown weather code"), 1) ∧
      formatASCIICodeChunk idStyles 12 25 1 =
        some (spacesN (((25 : Int) - 1).toNat / 2) ++ "Unknown weather code" ++
          spacesN (((25 : Int) - 1).toNat - ((25 : Int) - 1).toNat / 2))) :=
  ⟨by decide, Or.inl rfl, by decide,
   unknown_code_glyph_sentinel idStyles 12 (by decide) 1 (Or.inl rfl) 25 (by decide)⟩

/-! ### C7: formatDate -/

/-- C7: `formatDate` renders every string the layout parses as full
weekday, full month name and unpadded day (`"2024-10-13"` gives
`"Sunday October 13"`), and renders every parse failure as `""`. -/
theorem formatDate_spec :
    (∀ s : String, parseGoDate s = none → formatDate s = "") ∧
    (∀ (s : String) (y m d : Nat), parseGoDate s = some (y, m, d) →
      formatDate s = weekdayName y m d ++ " " ++ monthName m ++ " " ++ Nat.repr d) ∧
    formatDate ("2024-10-13") = "Sunday October 13" := by
  refine ⟨?_, ?_, by decide⟩
  · intro s hs
    simp [formatDate, hs]
  · intro s y m d hs
    simp [formatDate, hs]

/-- C7 witness: the theorem applied at `"not-a-date"` (parse failure) and
at `"2024-10-13"` (successful parse). -/
theorem formatDate_spec_witness :
    (parseGoDate ("not-a-date") = none ∧ formatDate ("not-a-date") = "") ∧
    (parseGoDate ("2024-10-13") = some (2024, 10, 13) ∧
      formatDate ("2024-10-13") =
        weekdayName 2024 10 13 ++ " " ++ monthName 10 ++ " " ++ Nat.repr 13) :=
  ⟨⟨by decide, formatDate_spec.1 ("not-a-date") (by decide)⟩,
   ⟨by decide, formatDate_spec.2.1 ("2024-10-13") 2024 10 13 (by decide)⟩⟩

/-! ### C1: comma-less input -/

/-- C1 counterexample: the claim says a comma-less input still runs the
lookup and produces an updated state; on input `"Minneapolis"` the code
reads `parts[1]` of a one-element slice — an index-out-of-range panic — so
no state is produced. -/
theorem handleInput_no_comma_cex :
    handleInput geoStub fetchStub vm0 ("Minneapolis") = none := by decide

/-- C1 amended: for every input whose comma-split has fewer than two parts,
`handleInput` sets the warning message and then panics reading `parts[1]`;
it never reaches the lookup and returns no updated state. -/
theorem handleInput_no_comma_panics (geocode : String → String → String × String)
    (fetch : String → String → Weather) (m : viewModel) (input : String)
    (h : (goSplit input ',').length < 2) :
    handleInput geocode fetch m input = none := by
  rcases hp : goSplit input ',' with _ | ⟨a, _ | ⟨b, rest⟩⟩
  · simp [handleInput, hp]
  · simp [handleInput, hp]
  · rw [hp] at h
    simp only [List.length_cons] at h
    omega

/-- C1 witness: the amended theorem applied at input `"Denver"`. -/
theorem handleInput_no_comma_panics_witness :
    ((goSplit ("Denver") ',').length < 2) ∧
    handleInput geoStub fetchStub vm0 ("Denver") = none :=
  ⟨by decide, handleInput_no_comma_panics geoStub fetchStub vm0 ("Denver") (by decide)⟩

/-! ### C10: the message field is never rendered -/

/-- C10: two view models that differ only in the `message` field render to
exactly the same screen — `View` never reads the warning message that
`handleInput` stores. -/
theorem view_ignores_message (st : Styles) (m : viewModel) (msg : String) :
    View st { m with message := msg } = View st m := rfl

/-! ### C8: the temperature texts -/

theorem ratFloor_eq_floor (q : ℚ) : ratFloor q = ⌊q⌋ := Rat.floor_def.symm

theorem rem_cast (q : ℚ) :
    ((q.num - ⌊q⌋ * (q.den : Int) : Int) : ℚ) = (q - ((⌊q⌋ : Int) : ℚ)) * (q.den : ℚ) := by
  have hdn : ((q.den : ℚ)) ≠ 0 := by
    exact_mod_cast q.den_pos.ne'
  have h := Rat.num_div_den q
  rw [div_eq_iff hdn] at h
  push_cast
  linear_combination h

theorem goRound_cases (q : ℚ) :
    (goRound q = ⌊q⌋ ∧ q - ((⌊q⌋ : Int) : ℚ) < 1/2) ∨
    (goRound q = ⌊q⌋ + 1 ∧ 1/2 < q - ((⌊q⌋ : Int) : ℚ)) ∨
    (q - ((⌊q⌋ : Int) : ℚ) = 1/2 ∧ Even (goRound q) ∧
      (goRound q = ⌊q⌋ ∨ goRound q = ⌊q⌋ + 1)) := by
  have hd0 : (0:ℚ) < (q.den : ℚ) := by exact_mod_cast q.den_pos
  have hrem := rem_cast q
  push_cast at hrem
  simp only [goRound, ratFloor_eq_floor]
  split_ifs with h1 h2 h3
  · left
    refine ⟨rfl, ?_⟩
    have h1q : ((2 * (q.num - ⌊q⌋ * (q.den : Int)) : Int) : ℚ) < (q.den : ℚ) := by
      exact_mod_cast h1
    push_cast at h1q
    rw [lt_div_iff₀ (by norm_num : (0:ℚ) < 2)]
    have hstep := (mul_lt_mul_right hd0).mp
      (show ((q - ((⌊q⌋ : Int) : ℚ)) * 2) * (q.den : ℚ) < 1 * (q.den : ℚ) by
        linarith [h1q, hrem])
    linarith [hstep]
  · right
    left
    refine ⟨rfl, ?_⟩
    have h2q : ((q.den : Nat) : ℚ) < ((2 * (q.num - ⌊q⌋ * (q.den : Int)) : Int) : ℚ) := by
      exact_mod_cast h2
    push_cast at h2q
    rw [div_lt_iff₀ (by norm_num : (0:ℚ) < 2)]
    have hstep := (mul_lt_mul_right hd0).mp
      (show 1 * (q.den : ℚ) < ((q - ((⌊q⌋ : Int) : ℚ)) * 2) * (q.den : ℚ) by
        linarith [h2q, hrem])
    linarith [hstep]
  · right
    right
    have heq : (2 : Int) * (q.num - ⌊q⌋ * (q.den : Int)) = (q.den : Int) :=
      le_antisymm (not_lt.mp h2) (not_lt.mp h1)
    have heqq : ((2 * (q.num - ⌊q⌋ * (q.den : Int)) : Int) : ℚ) = (q.den : ℚ) := by
      exact_mod_cast heq
    push_cast at heqq
    refine ⟨?_, Int.even_iff.mpr h3, Or.inl rfl⟩
    have hstep : ((q - ((⌊q⌋ : Int) : ℚ)) * 2) * (q.den : ℚ) = 1 * (q.den : ℚ) := by
      linarith [heqq, hrem]
    have hcan := mul_right_cancel₀ hd0.ne' hstep
    linarith [hcan]
  · right
    right
    have heq : (2 : Int) * (q.num - ⌊q⌋ * (q.den : Int)) = (q.den : Int) :=
      le_antisymm (not_lt.mp h2) (not_lt.mp h1)
    have heqq : ((2 * (q.num - ⌊q⌋ * (q.den : Int)) : Int) : ℚ) = (q.den : ℚ) := by
      exact_mod_cast heq
    push_cast at heqq
    refine ⟨?_, ?_, Or.inr rfl⟩
    · have hstep : ((q - ((⌊q⌋ : Int) : ℚ)) * 2) * (q.den : ℚ) = 1 * (q.den : ℚ) := by
        linarith [heqq, hrem]
      have hcan := mul_right_cancel₀ hd0.ne' hstep
      linarith [hcan]
    · exact Int.even_add_one.mpr (fun he => h3 (Int.even_iff.mp he))

theorem goRound_nearest (q : ℚ) : |q - ((goRound q : Int) : ℚ)| ≤ 1/2 := by
  have hle := Int.floor_le q
  have hlt := Int.lt_floor_add_one q
  rcases goRound_cases q with ⟨he, hb⟩ | ⟨he, hb⟩ | ⟨hb, _, he | he⟩ <;>
    rw [he] <;> rw [abs_le] <;> constructor <;> push_cast <;> linarith

theorem goRound_tie_even (q : ℚ) (h : q - ((⌊q⌋ : Int) : ℚ) = 1/2) :
    Even (goRound q) := by
  rcases goRound_cases q with ⟨_, hb⟩ | ⟨_, hb⟩ | ⟨_, hev, _⟩
  · linarith
  · linarith
  · exact hev

/-- C8 counterexample: at value −3/10 the unique nearest integer is 0 (the
distance |−3/10 − 0| is below 1/2), so under the claim the chunk text must
be `"High 0"`; the code prints `"High -0"` instead. -/
theorem highText_negzero_cex :
    highText (mkRat (-3) 10) = "High -0" ∧
    "High -0" ≠ "High " ++ toString (0 : Int) ∧
    |mkRat (-3) 10 - ((0 : Int) : ℚ)| < 1/2 := by
  refine ⟨by decide, by decide, ?_⟩
  have hm : mkRat (-3) 10 = -3/10 := by
    norm_num [Rat.mkRat_eq_div]
  rw [hm, abs_lt]
  constructor <;> push_cast <;> norm_num

/-- C8 amended: the high/low chunk text is `"High "`/`"Low "` followed by
Go's `%.0f` rendering of the value: an integer within 1/2 of the value,
ties resolved to the even neighbour, and rendered `"-0"` (sign kept) when a
negative value rounds to zero. -/
theorem temp_text_rounding (q : ℚ) (w : Int) :
    formatHighsChunk q w = center (highText q) w ∧
    formatLowsChunk q w = center (lowText q) w ∧
    ∃ z : Int, z = goRound q ∧ |q - ((z : Int) : ℚ)| ≤ 1/2 ∧
      (q - ((⌊q⌋ : Int) : ℚ) = 1/2 → Even z) ∧
      ((highText q = "High " ++ toString z ∧ lowText q = "Low " ++ toString z) ∨
        (z = 0 ∧ q < 0 ∧ highText q = "High -0" ∧ lowText q = "Low -0")) := by
  refine ⟨rfl, rfl, goRound q, rfl, goRound_nearest q, goRound_tie_even q, ?_⟩
  by_cases hc : goRound q = 0 ∧ q.num < 0
  · refine Or.inr ⟨hc.1, Rat.num_neg.mp hc.2, ?_, ?_⟩
    · unfold highText goFmtF0
      rw [if_pos hc]
      decide
    · unfold lowText goFmtF0
      rw [if_pos hc]
      decide
  · refine Or.inl ⟨?_, ?_⟩
    · unfold highText goFmtF0
      rw [if_neg hc]
    · unfold lowText goFmtF0
      rw [if_neg hc]

/-! ### C9: geocode failure substitution -/

/-- C9: a failed or empty geocode lookup yields the placeholder pair
`("0.0", "0.0")`; `resolveLocation` substitutes city/region `"Unknown"`
exactly for that pair (any other pair is kept verbatim); and any run of
`handleInput` under such a lookup produces a model whose location is
`Unknown/Unknown` with lat/lon text `"0.0"/"0.0"`. -/
theorem geocode_unknown_substitution
    (resp : Option (List LocationIQResponse)) (c s : String)
    (hresp : resp = none ∨ resp = some [])
    (fetch : String → String → Weather) (m m2 : viewModel) (input : String)
    (hrun : handleInput (getLatLonFromCityState resp) fetch m input = some m2) :
    getLatLonFromCityState resp c s = ("0.0", "0.0") ∧
    (∀ city state lat lon : String, ¬(lat = "0.0" ∧ lon = "0.0") →
      resolveLocation city state lat lon =
        { city := city, region := state, lat := lat, lon := lon }) ∧
    m2.location.city = "Unknown" ∧ m2.location.region = "Unknown" ∧
    m2.location.lat = "0.0" ∧ m2.location.lon = "0.0" := by
  have hgeo : ∀ a b : String, getLatLonFromCityState resp a b = ("0.0", "0.0") := by
    intro a b
    rcases hresp with rfl | rfl <;> rfl
  have hres : ∀ a b : String, resolveLocation a b ("0.0") ("0.0") =
      { city := "Unknown", region := "Unknown", lat := "0.0", lon := "0.0" } := by
    intro a b
    unfold resolveLocation
    rw [if_pos ⟨rfl, rfl⟩]
  refine ⟨hgeo c s, ?_, ?_⟩
  · intro city state lat lon hne
    unfold resolveLocation
    rw [if_neg hne]
  · simp only [handleInput, hgeo, hres] at hrun
    rcases h0 : (goSplit input ',')[0]? with _ | p0
    · rw [h0] at hrun
      simp at hrun
    rcases h1 : (goSplit input ',')[1]? with _ | p1
    · rw [h0, h1] at hrun
      simp at hrun
    rw [h0, h1] at hrun
    simp only [Option.some_bind] at hrun
    rcases hb : buildDailyWeather (fetch ("0.0") ("0.0")) with _ | daily
    · rw [hb] at hrun
      simp at hrun
    rw [hb] at hrun
    simp only [Option.map_some'] at hrun
    have hm2 := Option.some.inj hrun
    rw [← hm2]
    exact ⟨rfl, rfl, rfl, rfl⟩

/-- The concrete result state of the C9 witness run. -/
def vmC9 : viewModel :=
  { input := "", message := "",
    location := { city := "Unknown", region := "Unknown", lat := "0.0", lon := "0.0" },
    dailyWeather := [], weather := emptyWeather }

/-- C9 witness: the theorem applied to a concrete run with a `none`
geocode response, input `"a, b"` and an empty forecast. -/
theorem geocode_unknown_substitution_witness :
    (handleInput (getLatLonFromCityState none) fetchStub vm0 ("a, b") = some vmC9) ∧
    (getLatLonFromCityState none ("a") ("b") = ("0.0", "0.0") ∧
     (∀ city state lat lon : String, ¬(lat = "0.0" ∧ lon = "0.0") →
       resolveLocation city state lat lon =
         { city := city, region := state, lat := lat, lon := lon }) ∧
     vmC9.location.city = "Unknown" ∧ vmC9.location.region = "Unknown" ∧
     vmC9.location.lat = "0.0" ∧ vmC9.location.lon = "0.0") := by
  have hr : handleInput (getLatLonFromCityState none) fetchStub vm0 ("a, b") = some vmC9 := by
    decide
  exact ⟨hr, geocode_unknown_substitution none ("a") ("b") (Or.inl rfl)
    fetchStub vm0 vmC9 ("a, b") hr⟩
